import Mathlib

/-!
Shallow embedding of the vendored `permissions` package
(`permissions/registry.py`): the permissions registry, the direct-call
decision function (`wrapped_func`), and the endpoint-guard wrapper built by
`_make_view_decorator`.  Python exceptions are modelled as an `Err` sum and
`Except`; the externally observable calls a guarded invocation makes
(predicate, wrapped endpoint, unauthenticated handler, model-instance
lookup) are recorded as an event trace alongside the result.
-/

namespace Permissions

/-- An actor (Django user object), exposing the three flags consulted by the
permissions subsystem: `is_anonymous`, `is_staff`, `is_superuser`. -/
structure User where
  isAnonymous : Bool
  isStaff : Bool
  isSuperuser : Bool
deriving DecidableEq, Repr

/-- A request object of one of the recognized request types; `request.user`
is the acting user. -/
structure Request where
  user : User
deriving DecidableEq, Repr

/-- A resolved model instance, identified by an opaque key. -/
abbrev Inst := Nat

/-- A positional or keyword argument value in a guarded call: either a
request object (an instance of one of the recognized request types, which
`isinstance(-, request_types)` accepts) or any other object. -/
inductive Val where
  | req (r : Request)
  | obj (k : Nat)
deriving DecidableEq, Repr

/-- Whether a value is an instance of one of the recognized request types. -/
def Val.isReq : Val → Bool
  | .req _ => true
  | .obj _ => false

/-- Externally observable calls made during a guarded invocation. The
`lookupCalled` event records the model, the lookup field name and the field
value handed to the external model-instance lookup. -/
inductive Event where
  | predicateCalled
  | endpointCalled
  | handlerCalled
  | lookupCalled (model fieldName : String) (key : Val)
deriving DecidableEq, Repr

/-- Python exceptions raised by the permissions subsystem, plus the builtin
`IndexError`/`KeyError` that argument and dict indexing can raise and the
`Http404` propagated from `get_object_or_404`. -/
inductive Err where
  | indexError
  | keyError (k : String)
  | permissionsError (msg : String)
  | duplicatePermissionError (name : String)
  | noSuchPermissionError (name : String)
  | permissionDenied (name : String)
  | http404
deriving DecidableEq, Repr

/-- A permission predicate as registered: its declared `__name__`, its
declared argument-name list (what `inspect.getargspec(perm_func).args`
yields) and its behavior.  `run` receives the user, the optional model
instance and whatever extra keyword arguments the wrapper maps in from the
view call, and returns the verdict. -/
structure PermFunc where
  funcName : String
  argNames : List String
  run : User → Option Inst → List (String × Val) → Bool

/-- A view callable: its declared argument-name list (what
`inspect.getargspec(view).args` yields) and its behavior on the positional
and keyword arguments of a call. -/
structure ViewFunc where
  argNames : List String
  run : List Val → List (String × Val) → Nat

/-- Association-list lookup, modelling Python dict indexing. -/
def lookupAssoc (l : List (String × α)) (k : String) : Option α :=
  (l.find? (fun p => p.fst == k)).map Prod.snd

/-- Association-list update, modelling Python dict assignment `d[k] = v`. -/
def setAssoc : List (String × α) → String → α → List (String × α)
  | [], k, v => [(k, v)]
  | (k', v') :: rest, k, v =>
    if k' == k then (k, v) :: rest else (k', v') :: setAssoc rest k v

/-- Translation of `_default(v, default)` from `registry.py`. -/
def _default (v : Option α) (d : α) : α :=
  match v with
  | none => d
  | some x => x

/-- One registry `Entry` (the namedtuple in `registry.py`), minus the
`view_decorator` closure — the guard behavior is derived from these fields —
and minus `request_types`, whose membership test is modelled by
`Val.isReq`.  `views` is the set of protected view names, stored as a
duplicate-free list. -/
structure Entry where
  name : String
  permFunc : PermFunc
  model : Option String
  allowStaff : Bool
  allowSuperuser : Bool
  allowAnonymous : Bool
  unauthenticatedHandler : Request → Nat
  views : List String

/-- The closure state of one template-filter function produced by
`register` (the values `wrapped_func` captures). -/
structure FilterFunc where
  permFunc : PermFunc
  allowStaff : Bool
  allowSuperuser : Bool
  allowAnonymous : Bool

/-- The `PermissionsRegistry` state: the name-to-entry mapping, the
template-filter table populated via `register.filter(name, wrapped_func)`,
the registry-level defaults, and the external model-instance lookup
collaborator (`_get_model_instance`, i.e. `get_object_or_404`), which takes
the model, the lookup field name and the field value and yields an instance
when one exists. -/
structure Registry where
  registry : List (String × Entry)
  filters : List (String × FilterFunc)
  allowStaff : Bool
  allowSuperuser : Bool
  allowAnonymous : Bool
  unauthenticatedHandler : Request → Nat
  getModelInstance : String → String → Val → Option Inst

/-- The direct-call decision function `wrapped_func` built inside
`register`, instrumented with the trace of predicate invocations.  `user`
is `none` when the caller passed `None`; `inst` is `none` when the instance
argument was omitted (the `NO_VALUE` sentinel). -/
def wrapped_funcT (allowStaff allowSuperuser allowAnonymous : Bool)
    (perm_func : PermFunc) (user : Option User) (inst : Option Inst) :
    Bool × List Event :=
  match user with
  | none => (false, [])
  | some u =>
    if !allowAnonymous && u.isAnonymous then (false, [])
    else if allowStaff && u.isStaff then (true, [])
    else if allowSuperuser && u.isSuperuser then (true, [])
    else (perm_func.run u inst [], [.predicateCalled])

/-- The result of `wrapped_func`, without the instrumentation. -/
def wrapped_func (allowStaff allowSuperuser allowAnonymous : Bool)
    (perm_func : PermFunc) (user : Option User) (inst : Option Inst) : Bool :=
  (wrapped_funcT allowStaff allowSuperuser allowAnonymous perm_func user inst).fst

/-- Modelled from the spec, for comparison only: the Decision Engine
`evaluate` algorithm of spec section 4.2, transcribed rule by rule —
1. absent actor denies; 2. an anonymous actor under `allowAnonymous=false`
denies; 3. `allowStaff` with a staff actor allows; 4. `allowSuperuser` with
a superuser allows; 5. otherwise the predicate's boolean result is the
verdict (the subject passed explicitly by the caller, as in the spec's
direct-call variant). -/
def evaluateSpec (allowStaff allowSuperuser allowAnonymous : Bool)
    (perm_func : PermFunc) (actor : Option User) (subject : Option Inst) : Bool :=
  match actor with
  | none => false
  | some a =>
    if a.isAnonymous && !allowAnonymous then false
    else if allowStaff && a.isStaff then true
    else if allowSuperuser && a.isSuperuser then true
    else perm_func.run a subject []

/-- Behavior of one registered template filter. -/
def FilterFunc.apply (f : FilterFunc) (user : Option User) (inst : Option Inst) :
    Bool :=
  wrapped_func f.allowStaff f.allowSuperuser f.allowAnonymous f.permFunc user inst

/-- Translation of `PermissionsRegistry.register`.  Per-permission options
default to the registry-level settings; the name defaults to the
predicate's `__name__`; the reserved name `register` is refused; a
duplicate name is refused unless `replace` is set; otherwise the entry is
stored and the direct-call decision function is registered as a template
filter under the same name. -/
def Registry.register (reg : Registry) (perm_func : PermFunc)
    (model : Option String) (allowStaff allowSuperuser allowAnonymous : Option Bool)
    (unauthenticatedHandler : Option (Request → Nat))
    (name : Option String) (replace : Bool) : Except Err Registry :=
  let allowStaff := _default allowStaff reg.allowStaff
  let allowSuperuser := _default allowSuperuser reg.allowSuperuser
  let allowAnonymous := _default allowAnonymous reg.allowAnonymous
  let handler := _default unauthenticatedHandler reg.unauthenticatedHandler
  let name := _default name perm_func.funcName
  if name == "register" then
    .error (.permissionsError "register cannot be used as a permission name")
  else if (lookupAssoc reg.registry name).isSome && !replace then
    .error (.duplicatePermissionError name)
  else
    let entry : Entry :=
      { name := name, permFunc := perm_func, model := model,
        allowStaff := allowStaff, allowSuperuser := allowSuperuser,
        allowAnonymous := allowAnonymous, unauthenticatedHandler := handler,
        views := [] }
    let filt : FilterFunc :=
      { permFunc := perm_func, allowStaff := allowStaff,
        allowSuperuser := allowSuperuser, allowAnonymous := allowAnonymous }
    .ok { reg with
          registry := setAssoc reg.registry name entry,
          filters := setAssoc reg.filters name filt }

/-- Translation of `PermissionsRegistry._get_entry`. -/
def Registry.getEntry (reg : Registry) (permName : String) : Except Err Entry :=
  match lookupAssoc reg.registry permName with
  | some e => .ok e
  | none => .error (.noSuchPermissionError permName)

/-- Translation of `PermissionsRegistry.entry_for_view`: views are
identified by their fully-qualified name (`_get_view_name`), taken here as
the `viewName` argument. -/
def Registry.entry_for_view (reg : Registry) (viewName : String)
    (permName : String) : Except Err (Option Entry) :=
  (reg.getEntry permName).map (fun entry =>
    if entry.views.contains viewName then some entry else none)

/-- The closure state of the `wrapper` function produced by applying the
view decorator returned by `require(permName)` to a view: the values the
decorator captured from `_make_view_decorator` plus the wrapped view and
the `field` decorator argument (default `pk`). -/
structure WrapperConfig where
  permName : String
  permFunc : PermFunc
  model : Option String
  allowStaff : Bool
  allowSuperuser : Bool
  allowAnonymous : Bool
  unauthenticatedHandler : Request → Nat
  view : ViewFunc
  field : String
  lookup : String → String → Val → Option Inst

/-- Applying `registry.require(permName)`'s view decorator to a view:
fails with `NoSuchPermissionError` for an unregistered name, otherwise
records the view's name in the entry's protected-view set and yields the
updated registry together with the wrapper's closure state. -/
def Registry.requireApply (reg : Registry) (permName : String)
    (view : ViewFunc) (viewName : String) (field : String) :
    Except Err (Registry × WrapperConfig) :=
  (reg.getEntry permName).map (fun entry =>
    let entry2 : Entry :=
      { entry with
        views := if entry.views.contains viewName then entry.views
                 else viewName :: entry.views }
    ({ reg with registry := setAssoc reg.registry permName entry2 },
     { permName := permName, permFunc := entry.permFunc, model := entry.model,
       allowStaff := entry.allowStaff, allowSuperuser := entry.allowSuperuser,
       allowAnonymous := entry.allowAnonymous,
       unauthenticatedHandler := entry.unauthenticatedHandler,
       view := view, field := field, lookup := reg.getModelInstance }))

/-- The request-locating step at the top of `wrapper`: `args[0]` must be a
request, else `args[1]` must be; indexing past the end of `args` raises
`IndexError` and a failed two-place scan raises the could-not-find-request
`PermissionsError`.  Yields the request index and the request. -/
def findRequest : List Val → Except Err (Nat × Request)
  | [] => .error .indexError
  | .req r :: _ => .ok (0, r)
  | _ :: [] => .error .indexError
  | _ :: .req r :: _ => .ok (1, r)
  | _ :: _ :: _ =>
    .error (.permissionsError "Could not find request in args passed to view")

/-- The `view_args` dict built inside `test`: the call's keyword arguments,
overlaid with `request` and with the zip of the view's remaining declared
argument names against the remaining positional arguments (later dict
updates shadow earlier entries, hence the ordering). -/
def viewArgsOf (viewArgNames : List String) (args : List Val)
    (kwargs : List (String × Val)) (requestIndex : Nat) (request : Request) :
    List (String × Val) :=
  ((viewArgNames.drop (requestIndex + 1)).zip (args.drop (requestIndex + 1)))
    ++ [("request", Val.req request)] ++ kwargs

/-- The field-value selection inside `test` when the permission has a
model: the first positional argument after the request if any remain,
otherwise the keyword argument named by the view's first remaining declared
argument name (raising `IndexError` when the view declares none and
`KeyError` when the keyword argument is missing). -/
def fieldValOf (viewArgNames : List String) (args : List Val)
    (kwargs : List (String × Val)) (requestIndex : Nat) : Except Err Val :=
  match args.drop (requestIndex + 1) with
  | v :: _ => .ok v
  | [] =>
    match viewArgNames.drop (requestIndex + 1) with
    | [] => .error .indexError
    | n :: _ =>
      match lookupAssoc kwargs n with
      | some v => .ok v
      | none => .error (.keyError n)

/-- The extra keyword arguments handed to the predicate: for each of the
predicate's declared argument names after the positionally supplied ones,
the matching `view_args` value when one exists. -/
def extraKwargs (permArgNames : List String) (numPositional : Nat)
    (viewArgs : List (String × Val)) : List (String × Val) :=
  (permArgNames.drop numPositional).filterMap
    (fun n => (lookupAssoc viewArgs n).map (fun v => (n, v)))

/-- The `test` closure of `wrapper`: resolves the model instance when the
permission has a model (its lookup failure propagating as `Http404`) and
invokes the predicate, recording the lookup and the predicate call. -/
def runTest (cfg : WrapperConfig) (args : List Val)
    (kwargs : List (String × Val)) (requestIndex : Nat) (request : Request)
    (user : User) : Except Err Bool × List Event :=
  let viewArgs := viewArgsOf cfg.view.argNames args kwargs requestIndex request
  match cfg.model with
  | none =>
    (.ok (cfg.permFunc.run user none (extraKwargs cfg.permFunc.argNames 1 viewArgs)),
     [.predicateCalled])
  | some m =>
    match fieldValOf cfg.view.argNames args kwargs requestIndex with
    | .error e => (.error e, [])
    | .ok fv =>
      match cfg.lookup m cfg.field fv with
      | none => (.error .http404, [.lookupCalled m cfg.field fv])
      | some inst =>
        (.ok (cfg.permFunc.run user (some inst)
           (extraKwargs cfg.permFunc.argNames 2 viewArgs)),
         [.lookupCalled m cfg.field fv, .predicateCalled])

/-- The body of `wrapper` once the request has been located: anonymous
users are routed to the unauthenticated handler when the permission does
not allow them; otherwise `has_permission` is the staff bypass, else the
superuser bypass, else `test()`; on permission the view is called, on
denial an anonymous user is routed to the handler and an authenticated one
raises `PermissionDenied` carrying the permission name. -/
def wrapperAt (cfg : WrapperConfig) (args : List Val)
    (kwargs : List (String × Val)) (requestIndex : Nat) (request : Request) :
    Except Err Nat × List Event :=
  let user := request.user
  if !cfg.allowAnonymous && user.isAnonymous then
    (.ok (cfg.unauthenticatedHandler request), [.handlerCalled])
  else if cfg.allowStaff && user.isStaff then
    (.ok (cfg.view.run args kwargs), [.endpointCalled])
  else if cfg.allowSuperuser && user.isSuperuser then
    (.ok (cfg.view.run args kwargs), [.endpointCalled])
  else
    match runTest cfg args kwargs requestIndex request user with
    | (.error e, tr) => (.error e, tr)
    | (.ok true, tr) => (.ok (cfg.view.run args kwargs), tr ++ [.endpointCalled])
    | (.ok false, tr) =>
      if user.isAnonymous then
        (.ok (cfg.unauthenticatedHandler request), tr ++ [.handlerCalled])
      else
        (.error (.permissionDenied cfg.permName), tr)

/-- One guarded invocation: locate the request among the positional
arguments, then run the guarded-call body. -/
def wrapper (cfg : WrapperConfig) (args : List Val)
    (kwargs : List (String × Val)) : Except Err Nat × List Event :=
  match findRequest args with
  | .error e => (.error e, [])
  | .ok (idx, request) => wrapperAt cfg args kwargs idx request

/-- Whether a `register` call succeeded. -/
def registerSucceeds (r : Except Err Registry) : Bool :=
  match r with
  | .ok _ => true
  | .error _ => false

/-- Whether a `register` call succeeded and the resulting registry holds an
entry under `n`. -/
def registerStores (r : Except Err Registry) (n : String) : Bool :=
  match r with
  | .ok reg => (lookupAssoc reg.registry n).isSome
  | .error _ => false

/-! Concrete fixtures used by witness and counterexample theorems. -/

/-- An anonymous user. -/
def anonUserW : User := { isAnonymous := true, isStaff := false, isSuperuser := false }

/-- An authenticated user with no bypass flags. -/
def plainUserW : User := { isAnonymous := false, isStaff := false, isSuperuser := false }

/-- An authenticated staff user. -/
def staffUserW : User := { isAnonymous := false, isStaff := true, isSuperuser := false }

/-- A request from the anonymous user. -/
def anonReqW : Request := { user := anonUserW }

/-- A request from the plain authenticated user. -/
def plainReqW : Request := { user := plainUserW }

/-- A request from the staff user. -/
def staffReqW : Request := { user := staffUserW }

/-- A concrete unauthenticated handler returning response `777`. -/
def handlerW : Request → Nat := fun _ => 777

/-- A predicate that always denies. -/
def pfFalseW : PermFunc :=
  { funcName := "perm", argNames := ["user"], run := fun _ _ _ => false }

/-- A predicate that always allows. -/
def pfTrueW : PermFunc :=
  { funcName := "perm2", argNames := ["user"], run := fun _ _ _ => true }

/-- A two-argument predicate allowing exactly the model instance `7`. -/
def pfInst7W : PermFunc :=
  { funcName := "can_edit", argNames := ["user", "inst"],
    run := fun _ inst _ => inst == some 7 }

/-- A view with declared arguments `(request, ident)` returning `42`. -/
def viewW : ViewFunc := { argNames := ["request", "ident"], run := fun _ _ => 42 }

/-- A model-instance lookup that never finds anything. -/
def noLookupW : String → String → Val → Option Inst := fun _ _ _ => none

/-- A model-instance lookup resolving a plain value to itself. -/
def objLookupW : String → String → Val → Option Inst :=
  fun _ _ v => match v with | .obj k => some k | .req _ => none

/-- A baseline guard configuration with no bypass flags and no model. -/
def cfgBaseW : WrapperConfig :=
  { permName := "perm", permFunc := pfFalseW, model := none,
    allowStaff := false, allowSuperuser := false, allowAnonymous := false,
    unauthenticatedHandler := handlerW, view := viewW, field := "pk",
    lookup := noLookupW }

/-- A guard configuration for a model permission with lookup field `pk`. -/
def cfg6W : WrapperConfig :=
  { cfgBaseW with
    permName := "can_edit", permFunc := pfInst7W,
    model := some "Record", lookup := objLookupW }

/-- A guard configuration with the staff bypass enabled. -/
def cfgStaffW : WrapperConfig := { cfgBaseW with allowStaff := true }

/-- An empty registry with all defaults off. -/
def reg0W : Registry :=
  { registry := [], filters := [], allowStaff := false, allowSuperuser := false,
    allowAnonymous := false, unauthenticatedHandler := handlerW,
    getModelInstance := noLookupW }

/-- The registry after registering `pfFalseW` under the name `p`. -/
def reg1W : Registry :=
  (reg0W.register pfFalseW none none none none none (some "p") false).toOption.getD reg0W

/-- A registry entry protecting the view named `myview`. -/
def entry9W : Entry :=
  { name := "perm", permFunc := pfFalseW, model := none, allowStaff := false,
    allowSuperuser := false, allowAnonymous := false,
    unauthenticatedHandler := handlerW, views := ["myview"] }

/-- A one-entry registry for introspection tests. -/
def reg9W : Registry := { reg0W with registry := [("perm", entry9W)] }

/-! Helper lemmas. -/

/-- Updating an association list and looking the same key up yields the
stored value. -/
theorem lookupAssoc_setAssoc_self (l : List (String × α)) (k : String) (v : α) :
    lookupAssoc (setAssoc l k v) k = some v := by
  induction l with
  | nil => simp [setAssoc, lookupAssoc]
  | cons p rest ih =>
    rcases p with ⟨k', v'⟩
    by_cases h : k' = k
    · subst h
      simp [setAssoc, lookupAssoc]
    · simp [setAssoc, lookupAssoc, h] at ih ⊢
      exact ih

/-- The `test` closure never invokes the wrapped view. -/
theorem runTest_no_endpoint (cfg : WrapperConfig) (args : List Val)
    (kwargs : List (String × Val)) (idx : Nat) (request : Request)
    (user : User) :
    Event.endpointCalled ∉ (runTest cfg args kwargs idx request user).snd := by
  rcases hm : cfg.model with _ | m
  · simp [runTest, hm]
  · rcases hf : fieldValOf cfg.view.argNames args kwargs idx with e | fv
    · simp [runTest, hm, hf]
    · rcases hl : cfg.lookup m cfg.field fv with _ | inst
      · simp [runTest, hm, hf, hl]
      · simp [runTest, hm, hf, hl]

/-! Claim theorems. -/

/-- C1: when the located actor is anonymous and the permission does not
allow anonymous users, the guarded call returns exactly the unauthenticated
handler's response, invoking the handler exactly once and never invoking
the wrapped view or the predicate. -/
theorem anonymous_disallowed_goes_to_handler (cfg : WrapperConfig)
    (args : List Val) (kwargs : List (String × Val)) (idx : Nat)
    (request : Request) (hreq : findRequest args = .ok (idx, request))
    (hanon : request.user.isAnonymous = true)
    (hflag : cfg.allowAnonymous = false) :
    wrapper cfg args kwargs =
      (.ok (cfg.unauthenticatedHandler request), [.handlerCalled]) ∧
    (wrapper cfg args kwargs).snd.count .handlerCalled = 1 ∧
    Event.endpointCalled ∉ (wrapper cfg args kwargs).snd ∧
    Event.predicateCalled ∉ (wrapper cfg args kwargs).snd := by
  have h1 : wrapper cfg args kwargs =
      (.ok (cfg.unauthenticatedHandler request), [.handlerCalled]) := by
    simp [wrapper, hreq, wrapperAt, hanon, hflag]
  refine ⟨h1, ?_, ?_, ?_⟩ <;> rw [h1] <;> simp

/-- C1 witness: a concrete anonymous request against a permission with
`allowAnonymous` off. -/
theorem anonymous_disallowed_goes_to_handler_witness :
    findRequest [Val.req anonReqW] = .ok (0, anonReqW) ∧
    anonReqW.user.isAnonymous = true ∧
    cfgBaseW.allowAnonymous = false ∧
    (wrapper cfgBaseW [Val.req anonReqW] [] =
       (.ok (cfgBaseW.unauthenticatedHandler anonReqW), [.handlerCalled]) ∧
     (wrapper cfgBaseW [Val.req anonReqW] []).snd.count .handlerCalled = 1 ∧
     Event.endpointCalled ∉ (wrapper cfgBaseW [Val.req anonReqW] []).snd ∧
     Event.predicateCalled ∉ (wrapper cfgBaseW [Val.req anonReqW] []).snd) :=
  ⟨rfl, rfl, rfl,
   anonymous_disallowed_goes_to_handler cfgBaseW [Val.req anonReqW] [] 0 anonReqW
     rfl rfl rfl⟩

/-- C3: with the staff bypass set and a non-anonymous staff actor (or
likewise the superuser bypass with a superuser), the guarded call runs the
wrapped view without ever invoking the predicate, and the direct-call
decision function returns `true` without ever invoking the predicate. -/
theorem staff_superuser_bypass_allows_without_predicate (cfg : WrapperConfig)
    (args : List Val) (kwargs : List (String × Val)) (idx : Nat)
    (request : Request) (hreq : findRequest args = .ok (idx, request))
    (hanon : request.user.isAnonymous = false)
    (hby : (cfg.allowStaff && request.user.isStaff ||
            cfg.allowSuperuser && request.user.isSuperuser) = true) :
    wrapper cfg args kwargs =
      (.ok (cfg.view.run args kwargs), [.endpointCalled]) ∧
    ∀ inst : Option Inst,
      wrapped_funcT cfg.allowStaff cfg.allowSuperuser cfg.allowAnonymous
        cfg.permFunc (some request.user) inst = (true, []) := by
  cases hst : (cfg.allowStaff && request.user.isStaff) with
  | true =>
    constructor
    · simp [wrapper, hreq, wrapperAt, hanon, hst]
    · intro inst
      simp [wrapped_funcT, hanon, hst]
  | false =>
    have hsu : (cfg.allowSuperuser && request.user.isSuperuser) = true := by
      rw [hst, Bool.false_or] at hby
      exact hby
    constructor
    · simp [wrapper, hreq, wrapperAt, hanon, hst, hsu]
    · intro inst
      simp [wrapped_funcT, hanon, hst, hsu]

/-- C3 witness: a concrete staff request under a staff-bypass permission. -/
theorem staff_superuser_bypass_witness :
    findRequest [Val.req staffReqW] = .ok (0, staffReqW) ∧
    staffReqW.user.isAnonymous = false ∧
    (cfgStaffW.allowStaff && staffReqW.user.isStaff ||
     cfgStaffW.allowSuperuser && staffReqW.user.isSuperuser) = true ∧
    (wrapper cfgStaffW [Val.req staffReqW] [] =
       (.ok (cfgStaffW.view.run [Val.req staffReqW] []), [.endpointCalled]) ∧
     ∀ inst : Option Inst,
       wrapped_funcT cfgStaffW.allowStaff cfgStaffW.allowSuperuser
         cfgStaffW.allowAnonymous cfgStaffW.permFunc (some staffReqW.user) inst =
         (true, [])) :=
  ⟨rfl, rfl, rfl,
   staff_superuser_bypass_allows_without_predicate cfgStaffW [Val.req staffReqW]
     [] 0 staffReqW rfl rfl rfl⟩

/-- C8: the direct-call decision function returned by `register` computes
its boolean verdict by the spec's decision-engine rules: an absent actor
denies, an anonymous actor under `allowAnonymous=false` denies, the staff
and superuser bypasses allow, and otherwise the verdict is the predicate's
boolean result. -/
theorem wrapped_func_matches_decision_engine (aS aSu aA : Bool)
    (pf : PermFunc) (user : Option User) (inst : Option Inst) :
    wrapped_func aS aSu aA pf user inst = evaluateSpec aS aSu aA pf user inst := by
  cases user with
  | none => rfl
  | some u =>
    rcases u with ⟨an, st, su⟩
    cases an <;> cases aA <;> cases aS <;> cases st <;> cases aSu <;> cases su <;> rfl

/-- C9: for a registered permission, `entry_for_view` yields the entry
exactly when the view's name is recorded in the entry's protected-view set
and `none` otherwise; being a plain function of the registry it changes no
registry or entry state. -/
theorem entry_for_view_iff_view_recorded (reg : Registry)
    (viewName permName : String) (entry : Entry)
    (hget : reg.getEntry permName = .ok entry) :
    reg.entry_for_view viewName permName =
      .ok (if entry.views.contains viewName then some entry else none) ∧
    (reg.entry_for_view viewName permName = .ok (some entry) ↔
      viewName ∈ entry.views) := by
  have hev : reg.entry_for_view viewName permName =
      .ok (if entry.views.contains viewName then some entry else none) := by
    simp [Registry.entry_for_view, hget, Except.map]
  refine ⟨hev, ?_⟩
  rw [hev]
  by_cases hv : viewName ∈ entry.views
  · simp [hv]
  · simp [hv]

/-- C9 witness: a concrete one-entry registry protecting `myview`. -/
theorem entry_for_view_iff_view_recorded_witness :
    reg9W.getEntry "perm" = .ok entry9W ∧
    (reg9W.entry_for_view "myview" "perm" =
       .ok (if entry9W.views.contains "myview" then some entry9W else none) ∧
     (reg9W.entry_for_view "myview" "perm" = .ok (some entry9W) ↔
       "myview" ∈ entry9W.views)) :=
  ⟨rfl, entry_for_view_iff_view_recorded reg9W "myview" "perm" entry9W rfl⟩

/-- C2: an authenticated actor for whom neither bypass flag applies and
whose predicate check returned false makes the guarded call raise
`PermissionDenied` carrying the permission's name, without invoking the
wrapped view. -/
theorem authenticated_denied_raises_permission_denied (cfg : WrapperConfig)
    (args : List Val) (kwargs : List (String × Val)) (idx : Nat)
    (request : Request) (tr : List Event)
    (hreq : findRequest args = .ok (idx, request))
    (hanon : request.user.isAnonymous = false)
    (hstaff : (cfg.allowStaff && request.user.isStaff) = false)
    (hsuper : (cfg.allowSuperuser && request.user.isSuperuser) = false)
    (htest : runTest cfg args kwargs idx request request.user = (.ok false, tr)) :
    wrapper cfg args kwargs = (.error (.permissionDenied cfg.permName), tr) ∧
    Event.endpointCalled ∉ tr := by
  have hne : Event.endpointCalled ∉ tr := by
    have h := runTest_no_endpoint cfg args kwargs idx request request.user
    rw [htest] at h
    exact h
  refine ⟨?_, hne⟩
  simp [wrapper, hreq, wrapperAt, hanon, hstaff, hsuper, htest]

/-- C2 witness: a concrete authenticated request against an
always-denying permission. -/
theorem authenticated_denied_witness :
    findRequest [Val.req plainReqW] = .ok (0, plainReqW) ∧
    plainReqW.user.isAnonymous = false ∧
    (cfgBaseW.allowStaff && plainReqW.user.isStaff) = false ∧
    (cfgBaseW.allowSuperuser && plainReqW.user.isSuperuser) = false ∧
    runTest cfgBaseW [Val.req plainReqW] [] 0 plainReqW plainReqW.user =
      (.ok false, [.predicateCalled]) ∧
    (wrapper cfgBaseW [Val.req plainReqW] [] =
       (.error (.permissionDenied cfgBaseW.permName), [.predicateCalled]) ∧
     Event.endpointCalled ∉ [Event.predicateCalled]) :=
  ⟨rfl, rfl, rfl, rfl, rfl,
   authenticated_denied_raises_permission_denied cfgBaseW [Val.req plainReqW] []
     0 plainReqW [Event.predicateCalled] rfl rfl rfl rfl rfl⟩

/-- C5 counterexample: registering under the empty name is not rejected —
the call succeeds and stores an entry under the empty string, where the
claim predicts a configuration error and no stored entry. -/
theorem empty_name_registration_accepted_cx :
    registerSucceeds
      (reg0W.register pfFalseW none none none none none (some "") false) = true ∧
    registerStores
      (reg0W.register pfFalseW none none none none none (some "") false) "" = true :=
  ⟨rfl, rfl⟩

/-- C5 amended: `register` fails with the configuration-error
`PermissionsError`, storing nothing, exactly for the reserved name
`register`, regardless of the replace flag; an empty policy name is not
rejected — when not already taken it registers successfully like any other
name. -/
theorem reserved_name_rejected_empty_name_accepted (reg : Registry)
    (pf : PermFunc) (model : Option String) (aS aSu aA : Option Bool)
    (h : Option (Request → Nat)) (replace : Bool)
    (hfree : lookupAssoc reg.registry "" = none) :
    reg.register pf model aS aSu aA h (some "register") replace =
      .error (.permissionsError "register cannot be used as a permission name") ∧
    registerStores (reg.register pf model aS aSu aA h (some "") replace) "" =
      true := by
  constructor
  · simp [Registry.register, _default]
  · simp [Registry.register, _default, hfree, registerStores,
          lookupAssoc_setAssoc_self]

/-- C5 witness: the reserved-name rejection and the empty-name acceptance
on a concrete empty registry. -/
theorem reserved_name_rejected_witness :
    lookupAssoc reg0W.registry "" = none ∧
    (reg0W.register pfFalseW none none none none none (some "register") false =
       .error (.permissionsError "register cannot be used as a permission name") ∧
     registerStores
       (reg0W.register pfFalseW none none none none none (some "") false) "" =
       true) :=
  ⟨rfl, reserved_name_rejected_empty_name_accepted reg0W pfFalseW none none none
    none none false rfl⟩

/-- C7 counterexample: a guarded call with a single non-request positional
argument contains no recognizable request, yet it fails with `IndexError`
from evaluating `args[1]`, not with the could-not-find-request
`PermissionsError` the claim predicts. -/
theorem missing_request_short_arglist_cx :
    wrapper cfgBaseW [Val.obj 0] [] = (.error .indexError, []) ∧
    Err.indexError ≠
      Err.permissionsError "Could not find request in args passed to view" :=
  ⟨rfl, by decide⟩

/-- C7 amended: with at least two positional arguments of which neither of
the first two is a recognized request, the wrapper fails with the
could-not-find-request `PermissionsError` and the wrapped view is never
invoked; with fewer than two positional arguments and no request among
them, an `IndexError` propagates instead (the view still never invoked). -/
theorem missing_request_guard_behavior (cfg : WrapperConfig) (a0 a1 : Val)
    (rest : List Val) (kwargs : List (String × Val))
    (h0 : a0.isReq = false) (h1 : a1.isReq = false) :
    wrapper cfg (a0 :: a1 :: rest) kwargs =
      (.error (.permissionsError "Could not find request in args passed to view"),
       []) ∧
    wrapper cfg [] kwargs = (.error .indexError, []) ∧
    wrapper cfg [a0] kwargs = (.error .indexError, []) := by
  cases a0 with
  | req r => simp [Val.isReq] at h0
  | obj k =>
    cases a1 with
    | req r => simp [Val.isReq] at h1
    | obj k2 => exact ⟨rfl, rfl, rfl⟩

/-- C7 witness: two concrete non-request arguments. -/
theorem missing_request_guard_behavior_witness :
    (Val.obj 5).isReq = false ∧ (Val.obj 6).isReq = false ∧
    (wrapper cfgBaseW [Val.obj 5, Val.obj 6] [] =
       (.error (.permissionsError "Could not find request in args passed to view"),
        []) ∧
     wrapper cfgBaseW [] [] = (.error .indexError, []) ∧
     wrapper cfgBaseW [Val.obj 5] [] = (.error .indexError, [])) :=
  ⟨rfl, rfl,
   missing_request_guard_behavior cfgBaseW (Val.obj 5) (Val.obj 6) [] [] rfl rfl⟩

/-- C6 counterexample: the guarded call `view(request, ident=7, pk=99)` on
a view declared `(request, ident)` under a model permission wrapped with
`field='pk'` hands the external lookup the key `7` — the value of the
keyword argument named by the view's first remaining declared parameter —
although a keyword argument named by the wrap-time field parameter `pk` is
present with the different value `99`. -/
theorem subject_key_not_field_named_kwarg_cx :
    (wrapper cfg6W [Val.req plainReqW]
       [("ident", Val.obj 7), ("pk", Val.obj 99)]).snd =
      [.lookupCalled "Record" "pk" (Val.obj 7), .predicateCalled,
       .endpointCalled] ∧
    lookupAssoc [("ident", Val.obj 7), ("pk", Val.obj 99)] "pk" =
      some (Val.obj 99) ∧
    cfg6W.field = "pk" ∧
    Val.obj 7 ≠ Val.obj 99 :=
  ⟨rfl, rfl, rfl, by decide⟩

/-- C6 amended: for a guarded call under a model permission that reaches
the lookup, the lookup key is the first remaining positional argument after
the request when any remain, and otherwise the value of the keyword
argument named by the view's first remaining declared parameter name (not
by the wrap-time field parameter, which instead names the model lookup
field); the key is handed to the external lookup together with that field
name, and a not-found lookup propagates as `Http404` without invoking the
view. -/
theorem subject_key_selection_and_lookup (cfg : WrapperConfig)
    (args : List Val) (kwargs : List (String × Val)) (idx : Nat)
    (request : Request) (m : String) (v : Val)
    (hreq : findRequest args = .ok (idx, request))
    (hgate : (!cfg.allowAnonymous && request.user.isAnonymous) = false)
    (hstaff : (cfg.allowStaff && request.user.isStaff) = false)
    (hsuper : (cfg.allowSuperuser && request.user.isSuperuser) = false)
    (hmodel : cfg.model = some m)
    (hfv : fieldValOf cfg.view.argNames args kwargs idx = .ok v) :
    (∀ a rest, args.drop (idx + 1) = a :: rest → v = a) ∧
    (args.drop (idx + 1) = [] →
      ∀ nm nrest, cfg.view.argNames.drop (idx + 1) = nm :: nrest →
        lookupAssoc kwargs nm = some v) ∧
    Event.lookupCalled m cfg.field v ∈ (wrapper cfg args kwargs).snd ∧
    (cfg.lookup m cfg.field v = none →
      wrapper cfg args kwargs =
        (.error .http404, [.lookupCalled m cfg.field v])) := by
  have hw : wrapper cfg args kwargs = wrapperAt cfg args kwargs idx request := by
    simp [wrapper, hreq]
  refine ⟨?_, ?_, ?_, ?_⟩
  · intro a rest hdrop
    simp [fieldValOf, hdrop] at hfv
    exact hfv.symm
  · intro hdrop nm nrest hnames
    simp [fieldValOf, hdrop, hnames] at hfv
    rcases hl : lookupAssoc kwargs nm with _ | w
    · simp [hl] at hfv
    · simp [hl] at hfv
      rw [hfv]
  · rw [hw]
    rcases hl : cfg.lookup m cfg.field v with _ | inst
    · have hrt : runTest cfg args kwargs idx request request.user =
          (.error .http404, [.lookupCalled m cfg.field v]) := by
        simp [runTest, hmodel, hfv, hl]
      simp [wrapperAt, hgate, hstaff, hsuper, hrt]
    · have hrt : runTest cfg args kwargs idx request request.user =
          (.ok (cfg.permFunc.run request.user (some inst)
             (extraKwargs cfg.permFunc.argNames 2
               (viewArgsOf cfg.view.argNames args kwargs idx request))),
           [.lookupCalled m cfg.field v, .predicateCalled]) := by
        simp [runTest, hmodel, hfv, hl]
      cases hb : cfg.permFunc.run request.user (some inst)
          (extraKwargs cfg.permFunc.argNames 2
            (viewArgsOf cfg.view.argNames args kwargs idx request)) with
      | true => simp [wrapperAt, hgate, hstaff, hsuper, hrt, hb]
      | false =>
        cases hua : request.user.isAnonymous with
        | true =>
          have haa : cfg.allowAnonymous = true := by
            rw [hua, Bool.and_true] at hgate
            simpa using hgate
          simp [wrapperAt, hgate, hstaff, hsuper, hrt, hb, hua, haa]
        | false => simp [wrapperAt, hgate, hstaff, hsuper, hrt, hb, hua]
  · intro hl
    have hrt : runTest cfg args kwargs idx request request.user =
        (.error .http404, [.lookupCalled m cfg.field v]) := by
      simp [runTest, hmodel, hfv, hl]
    rw [hw]
    simp [wrapperAt, hgate, hstaff, hsuper, hrt]

/-- C6 witness: the concrete keyword-argument call of the counterexample,
showing each hypothesis holds and the amended selection applies. -/
theorem subject_key_selection_witness :
    findRequest [Val.req plainReqW] = .ok (0, plainReqW) ∧
    (!cfg6W.allowAnonymous && plainReqW.user.isAnonymous) = false ∧
    (cfg6W.allowStaff && plainReqW.user.isStaff) = false ∧
    (cfg6W.allowSuperuser && plainReqW.user.isSuperuser) = false ∧
    cfg6W.model = some "Record" ∧
    fieldValOf cfg6W.view.argNames [Val.req plainReqW]
      [("ident", Val.obj 7), ("pk", Val.obj 99)] 0 = .ok (Val.obj 7) ∧
    ((∀ a rest,
        ([Val.req plainReqW] : List Val).drop (0 + 1) = a :: rest →
          Val.obj 7 = a) ∧
     (([Val.req plainReqW] : List Val).drop (0 + 1) = [] →
       ∀ nm nrest, cfg6W.view.argNames.drop (0 + 1) = nm :: nrest →
         lookupAssoc [("ident", Val.obj 7), ("pk", Val.obj 99)] nm =
           some (Val.obj 7)) ∧
     Event.lookupCalled "Record" cfg6W.field (Val.obj 7) ∈
       (wrapper cfg6W [Val.req plainReqW]
          [("ident", Val.obj 7), ("pk", Val.obj 99)]).snd ∧
     (cfg6W.lookup "Record" cfg6W.field (Val.obj 7) = none →
       wrapper cfg6W [Val.req plainReqW]
           [("ident", Val.obj 7), ("pk", Val.obj 99)] =
         (.error .http404,
          [.lookupCalled "Record" cfg6W.field (Val.obj 7)]))) :=
  ⟨rfl, rfl, rfl, rfl, rfl, rfl,
   subject_key_selection_and_lookup cfg6W [Val.req plainReqW]
     [("ident", Val.obj 7), ("pk", Val.obj 99)] 0 plainReqW "Record"
     (Val.obj 7) rfl rfl rfl rfl rfl rfl⟩

/-- Successful registration stores the new entry and the new filter under
the chosen name, with options defaulted from the registry settings. -/
theorem register_fresh_or_replace (reg : Registry) (pf : PermFunc)
    (model : Option String) (aS aSu aA : Option Bool)
    (h : Option (Request → Nat)) (n : String) (replace : Bool)
    (hn : (n == "register") = false)
    (hok : ((lookupAssoc reg.registry n).isSome && !replace) = false) :
    reg.register pf model aS aSu aA h (some n) replace =
      .ok { reg with
            registry := setAssoc reg.registry n
              { name := n, permFunc := pf, model := model,
                allowStaff := _default aS reg.allowStaff,
                allowSuperuser := _default aSu reg.allowSuperuser,
                allowAnonymous := _default aA reg.allowAnonymous,
                unauthenticatedHandler := _default h reg.unauthenticatedHandler,
                views := [] },
            filters := setAssoc reg.filters n
              { permFunc := pf,
                allowStaff := _default aS reg.allowStaff,
                allowSuperuser := _default aSu reg.allowSuperuser,
                allowAnonymous := _default aA reg.allowAnonymous } } := by
  simp [Registry.register, _default, hn, hok]

/-- C4: registering an already-registered name again without replace fails
with `DuplicatePermissionError` and leaves the first registration's entry
in place, while registering it with replace succeeds and the second entry
supersedes the first both for entry lookups (hence `require`) and in the
template-filter table backing direct decision calls. -/
theorem register_duplicate_rejected_and_replace_supersedes
    (reg reg1 : Registry) (f1 f2 : PermFunc) (m1 m2 : Option String)
    (aS1 aSu1 aA1 aS2 aSu2 aA2 : Option Bool)
    (h1 h2 : Option (Request → Nat)) (n : String)
    (hfirst : reg.register f1 m1 aS1 aSu1 aA1 h1 (some n) false = .ok reg1) :
    reg1.register f2 m2 aS2 aSu2 aA2 h2 (some n) false =
      .error (.duplicatePermissionError n) ∧
    reg1.getEntry n = .ok
      { name := n, permFunc := f1, model := m1,
        allowStaff := _default aS1 reg.allowStaff,
        allowSuperuser := _default aSu1 reg.allowSuperuser,
        allowAnonymous := _default aA1 reg.allowAnonymous,
        unauthenticatedHandler := _default h1 reg.unauthenticatedHandler,
        views := [] } ∧
    ∃ reg2,
      reg1.register f2 m2 aS2 aSu2 aA2 h2 (some n) true = .ok reg2 ∧
      reg2.getEntry n = .ok
        { name := n, permFunc := f2, model := m2,
          allowStaff := _default aS2 reg1.allowStaff,
          allowSuperuser := _default aSu2 reg1.allowSuperuser,
          allowAnonymous := _default aA2 reg1.allowAnonymous,
          unauthenticatedHandler := _default h2 reg1.unauthenticatedHandler,
          views := [] } ∧
      lookupAssoc reg2.filters n = some
        { permFunc := f2,
          allowStaff := _default aS2 reg1.allowStaff,
          allowSuperuser := _default aSu2 reg1.allowSuperuser,
          allowAnonymous := _default aA2 reg1.allowAnonymous } := by
  have hbeq : (n == "register") = false := by
    by_cases hn : n = "register"
    · rw [hn] at hfirst
      simp [Registry.register, _default] at hfirst
    · simp [hn]
  have hdup : (lookupAssoc reg.registry n).isSome = false := by
    cases hd : (lookupAssoc reg.registry n).isSome with
    | false => rfl
    | true => simp [Registry.register, _default, hbeq, hd] at hfirst
  rw [register_fresh_or_replace reg f1 m1 aS1 aSu1 aA1 h1 n false hbeq
    (by simp [hdup])] at hfirst
  simp only [Except.ok.injEq] at hfirst
  subst hfirst
  refine ⟨?_, ?_, ?_⟩
  · simp [Registry.register, _default, hbeq, lookupAssoc_setAssoc_self]
  · simp [Registry.getEntry, lookupAssoc_setAssoc_self]
  · refine ⟨_, register_fresh_or_replace _ f2 m2 aS2 aSu2 aA2 h2 n true hbeq
      (by simp), ?_, ?_⟩
    · simp [Registry.getEntry, lookupAssoc_setAssoc_self]
    · simp [lookupAssoc_setAssoc_self]

/-- C4 witness: register `p`, then attempt a duplicate and a replace on a
concrete registry. -/
theorem register_duplicate_replace_witness :
    reg0W.register pfFalseW none none none none none (some "p") false =
      .ok reg1W ∧
    (reg1W.register pfTrueW none none none none none (some "p") false =
       .error (.duplicatePermissionError "p") ∧
     reg1W.getEntry "p" = .ok
       { name := "p", permFunc := pfFalseW, model := none,
         allowStaff := _default none reg0W.allowStaff,
         allowSuperuser := _default none reg0W.allowSuperuser,
         allowAnonymous := _default none reg0W.allowAnonymous,
         unauthenticatedHandler := _default none reg0W.unauthenticatedHandler,
         views := [] } ∧
     ∃ reg2,
       reg1W.register pfTrueW none none none none none (some "p") true =
         .ok reg2 ∧
       reg2.getEntry "p" = .ok
         { name := "p", permFunc := pfTrueW, model := none,
           allowStaff := _default none reg1W.allowStaff,
           allowSuperuser := _default none reg1W.allowSuperuser,
           allowAnonymous := _default none reg1W.allowAnonymous,
           unauthenticatedHandler := _default none reg1W.unauthenticatedHandler,
           views := [] } ∧
       lookupAssoc reg2.filters "p" = some
         { permFunc := pfTrueW,
           allowStaff := _default none reg1W.allowStaff,
           allowSuperuser := _default none reg1W.allowSuperuser,
           allowAnonymous := _default none reg1W.allowAnonymous }) :=
  ⟨rfl,
   register_duplicate_rejected_and_replace_supersedes reg0W reg1W pfFalseW
     pfTrueW none none none none none none none none none none "p" rfl⟩

/-- C10: a registration call without an explicit name behaves exactly as
one whose name is the predicate's own declared `__name__` — every
downstream operation (duplicate detection, the reserved-name check, entry
storage, filter exposure) sees the derived name. -/
theorem register_derives_name_from_perm_func (reg : Registry) (pf : PermFunc)
    (model : Option String) (aS aSu aA : Option Bool)
    (h : Option (Request → Nat)) (replace : Bool) :
    reg.register pf model aS aSu aA h none replace =
      reg.register pf model aS aSu aA h (some pf.funcName) replace := rfl

end Permissions
